import Mathlib

/-!
Verification of the contract-call argument-marshaling layer of
`AuctionAgent.py`: the three adapter functions `start_nft_auction`,
`bid_on_nft` and `finalize_nft_auction`, which build a contract
invocation, submit it through an injected wallet capability, block on its
settlement, and return a formatted result or error string.

Embedding conventions:
* Python exceptions are modelled by `Except String`; an exception's
  message is the `String` payload.
* Python `int` is `ℤ`, Python `float` is `ℚ` with exact arithmetic;
  `int(x)` on a nonneg/neg value truncates toward zero (`pyInt`).
* The wallet capability is a record of one operation,
  `invoke_contract`, threaded through an abstract state `σ` so that the
  sequence of submitted invocations is observable; `.wait()` is a field
  of the returned pending invocation.
* Attribute access on the settled result
  (`result.transaction.transaction_hash` / `transaction_link`) may raise
  in Python when the settled object is malformed, so those two fields
  are themselves `Except String String`.
-/

/-- A Python value as it appears in a contract-call argument mapping:
the adapter only ever puts strings and integers there. -/
inductive PyVal where
  | str : String → PyVal
  | int : ℤ → PyVal
deriving DecidableEq, Repr

/-- Modelled from the spec: the static ABI table (`AUCTION_ABI` imported
from the `constant` module, which is not under src/) is external static
data whose contents the adapter never inspects, so it is a one-point
schema token. -/
inductive AbiSchema where
  | auctionAbi
deriving DecidableEq, Repr

/-- The `AUCTION_ABI` constant passed as the `abi` argument of every
invocation. -/
def AUCTION_ABI : AbiSchema := AbiSchema.auctionAbi

/-- `AUCTION_CONTRACT_ADDRESS` from AuctionAgent.py line 33. -/
def AUCTION_CONTRACT_ADDRESS : String := "0xA0f0b923532fdbcd85A11ccAED1362691C7931fA"

/-- The keyword arguments of one `wallet.invoke_contract(...)` call:
contract address, method name, argument mapping (a Python dict, kept in
insertion order), ABI reference, and the optional transferred value in
wei (`value=` keyword; `none` when the keyword is absent). -/
structure ContractInvocation where
  contract_address : String
  method : String
  args : List (String × PyVal)
  abi : AbiSchema
  value : Option ℤ
deriving DecidableEq, Repr

/-- The `.transaction` attribute of a settled invocation. Reading
`transaction_hash` / `transaction_link` off it is a Python attribute
access that raises when the settled object is malformed, hence
`Except String String`. -/
structure Transaction where
  transaction_hash : Except String String
  transaction_link : Except String String
deriving Repr

/-- The settled invocation returned by `.wait()`. -/
structure SettledInvocation where
  transaction : Transaction
deriving Repr

/-- The pending invocation returned by `wallet.invoke_contract(...)`;
calling `.wait()` either returns the settled invocation or raises. -/
structure PendingInvocation where
  wait : Except String SettledInvocation
deriving Repr

/-- The injected wallet capability, threaded through an abstract state
`σ` (so a stub can log calls or count them): `invoke_contract` takes the
current state and the call's arguments and either returns a pending
invocation or raises. -/
structure Wallet (σ : Type) where
  invoke_contract : σ → ContractInvocation → Except String PendingInvocation × σ

/-- Python `int()` applied to an exact numeric value: truncation toward
zero (floor for nonnegative arguments, ceiling for negative ones). -/
def pyInt (q : ℚ) : ℤ := if 0 ≤ q then ⌊q⌋ else ⌈q⌉

/-- Python `str()` of a float value that is an exact decimal: renders
the shortest decimal form, e.g. `str(0.1) = "0.1"`, `str(3.0) = "3.0"`.
Values whose denominator is not a divisor of a power of ten fall back to
the rational's own representation (never reached by the adapter's
formatted examples). -/
def pyFloatStr (q : ℚ) : String :=
  let render : ℚ → String := fun r =>
    match (List.range 40).find? (fun k => 10 ^ k % r.den == 0) with
    | none => toString r
    | some k =>
      if k == 0 then toString r.num ++ ".0"
      else
        let m := r.num.toNat * (10 ^ k / r.den)
        let digits := Nat.toDigits 10 (m % 10 ^ k)
        let padded := List.replicate (k - digits.length) '0' ++ digits
        let trimmed := (padded.reverse.dropWhile (fun c => c == '0')).reverse
        toString (m / 10 ^ k) ++ "." ++ String.mk trimmed
  if q < 0 then "-" ++ render (-q) else render q

/-- `start_nft_auction` (AuctionAgent.py lines 95-142): converts the
ETH starting price to wei with `int(starting_price * 10**18)`, builds
the argument dict, invokes `createAuction` on the fixed auction
contract, waits, and formats a success message; any exception raised
inside the `try` block becomes `"Error creating auction: <message>"`. -/
def start_nft_auction {σ : Type} (wallet : Wallet σ) (s : σ)
    (nft_contract_address : String) (token_id : ℤ)
    (starting_price : ℚ) (duration : ℤ) : String × σ :=
  let starting_price_wei : ℤ := pyInt (starting_price * 10 ^ 18)
  let auction_args : List (String × PyVal) :=
    [("nftContract", PyVal.str nft_contract_address),
     ("tokenId", PyVal.int token_id),
     ("startingPrice", PyVal.int starting_price_wei),
     ("duration", PyVal.int duration)]
  let call := wallet.invoke_contract s
    { contract_address := AUCTION_CONTRACT_ADDRESS
      method := "createAuction"
      args := auction_args
      abi := AUCTION_ABI
      value := none }
  let body : Except String String := do
    let pending ← call.1
    let auction_creation ← pending.wait
    let txHash ← auction_creation.transaction.transaction_hash
    let txLink ← auction_creation.transaction.transaction_link
    pure ("Auction created successfully for token ID " ++ toString token_id ++ ".\n"
      ++ "NFT Contract: " ++ nft_contract_address ++ "\n"
      ++ "Starting price: " ++ pyFloatStr starting_price ++ " ETH\n"
      ++ "Duration: " ++ toString duration ++ " seconds\n"
      ++ "Transaction hash: " ++ txHash ++ "\n"
      ++ "Transaction link: " ++ txLink)
  (match body with
   | Except.ok msg => msg
   | Except.error e => "Error creating auction: " ++ e,
   call.2)

/-- `bid_on_nft` (AuctionAgent.py lines 144-174): the argument dict
carries only the token id; the ETH bid amount is converted to wei and
attached as the invocation's `value=`; method `"bid"`; exceptions become
`"Error placing bid: <message>"`. -/
def bid_on_nft {σ : Type} (wallet : Wallet σ) (s : σ)
    (token_id : ℤ) (bid_amount : ℚ) : String × σ :=
  let bid_args : List (String × PyVal) := [("tokenId", PyVal.int token_id)]
  let call := wallet.invoke_contract s
    { contract_address := AUCTION_CONTRACT_ADDRESS
      method := "bid"
      args := bid_args
      abi := AUCTION_ABI
      value := some (pyInt (bid_amount * 10 ^ 18)) }
  let body : Except String String := do
    let pending ← call.1
    let bid_result ← pending.wait
    let txHash ← bid_result.transaction.transaction_hash
    let txLink ← bid_result.transaction.transaction_link
    pure ("Bid placed on token ID " ++ toString token_id
      ++ " with amount " ++ pyFloatStr bid_amount ++ " ETH.\n"
      ++ "Transaction hash: " ++ txHash ++ "\n"
      ++ "Transaction link: " ++ txLink)
  (match body with
   | Except.ok msg => msg
   | Except.error e => "Error placing bid: " ++ e,
   call.2)

/-- `finalize_nft_auction` (AuctionAgent.py lines 176-204): argument
dict carries only the token id, no `value=` keyword, method
`"finalizeAuction"`; exceptions become
`"Error finalizing auction: <message>"`. -/
def finalize_nft_auction {σ : Type} (wallet : Wallet σ) (s : σ)
    (token_id : ℤ) : String × σ :=
  let finalize_args : List (String × PyVal) := [("tokenId", PyVal.int token_id)]
  let call := wallet.invoke_contract s
    { contract_address := AUCTION_CONTRACT_ADDRESS
      method := "finalizeAuction"
      args := finalize_args
      abi := AUCTION_ABI
      value := none }
  let body : Except String String := do
    let pending ← call.1
    let finalize_result ← pending.wait
    let txHash ← finalize_result.transaction.transaction_hash
    let txLink ← finalize_result.transaction.transaction_link
    pure ("Auction finalized for token ID " ++ toString token_id ++ ".\n"
      ++ "Transaction hash: " ++ txHash ++ "\n"
      ++ "Transaction link: " ++ txLink)
  (match body with
   | Except.ok msg => msg
   | Except.error e => "Error finalizing auction: " ++ e,
   call.2)

/-- A stub wallet that records every submitted invocation in a log and
answers each one with `f`. -/
def loggingWallet (f : ContractInvocation → Except String PendingInvocation) :
    Wallet (List ContractInvocation) :=
  ⟨fun s inv => (f inv, s ++ [inv])⟩

/-- A stub wallet whose submission always raises with message `msg`. -/
def failingWallet (msg : String) : Wallet Unit :=
  ⟨fun s _ => (Except.error msg, s)⟩

/-- A stub wallet whose submission succeeds but whose `.wait()` raises
with message `msg`. -/
def waitFailingWallet (msg : String) : Wallet Unit :=
  ⟨fun s _ => (Except.ok ⟨Except.error msg⟩, s)⟩

/-- A stub wallet whose invocation settles with the given transaction
hash and link. -/
def okWallet (h l : String) : Wallet Unit :=
  ⟨fun s _ => (Except.ok ⟨Except.ok ⟨⟨Except.ok h, Except.ok l⟩⟩⟩, s)⟩

/-- A stub wallet that settles successfully with the given transaction
hash and link and counts how many invocations it received. -/
def countingWallet (h l : String) : Wallet ℕ :=
  ⟨fun n _ => (Except.ok ⟨Except.ok ⟨⟨Except.ok h, Except.ok l⟩⟩⟩, n + 1)⟩

/-- A stub wallet whose invocation settles, but the settled object is
malformed: accessing `transaction_hash` (and `transaction_link`) raises
with message `msg`. -/
def noHashWallet (msg : String) : Wallet Unit :=
  ⟨fun s _ => (Except.ok ⟨Except.ok ⟨⟨Except.error msg, Except.error msg⟩⟩⟩, s)⟩

/-- A stub wallet whose settled object has a transaction hash `h` but
accessing `transaction_link` raises with message `msg`. -/
def noLinkWallet (msg h : String) : Wallet Unit :=
  ⟨fun s _ => (Except.ok ⟨Except.ok ⟨⟨Except.ok h, Except.error msg⟩⟩⟩, s)⟩

/-- Whether `pat` occurs as a contiguous substring of `s`, on character
lists. -/
def hasSubList : List Char → List Char → Bool
  | s, pat =>
    if pat.isPrefixOf s then true
    else
      match s with
      | [] => false
      | _ :: cs => hasSubList cs pat

/-- Whether `pat` occurs as a contiguous substring of `s`. -/
def strHasSub (s pat : String) : Bool := hasSubList s.data pat.data

/-- C1: for every `startingPriceEth ≥ 0`, the wei value placed in the
invocation's `startingPrice` argument equals
`floor(startingPriceEth * 10^18)` — `int()` truncates toward zero, which
on nonnegative values is exactly the floor, losing nothing beyond a
wei. -/
theorem start_auction_startingPrice_floor
    (f : ContractInvocation → Except String PendingInvocation)
    (s : List ContractInvocation) (nft : String) (tid : ℤ) (price : ℚ) (dur : ℤ)
    (hp : 0 ≤ price) :
    (start_nft_auction (loggingWallet f) s nft tid price dur).2 =
      s ++ [{ contract_address := AUCTION_CONTRACT_ADDRESS
              method := "createAuction"
              args := [("nftContract", PyVal.str nft), ("tokenId", PyVal.int tid),
                       ("startingPrice", PyVal.int ⌊price * 10 ^ 18⌋),
                       ("duration", PyVal.int dur)]
              abi := AUCTION_ABI
              value := none }] := by
  have h18 : pyInt (price * 10 ^ 18) = ⌊price * 10 ^ 18⌋ := by
    unfold pyInt
    rw [if_pos (by positivity)]
  simp [start_nft_auction, loggingWallet, h18]

/-- Witness for C1 at `startingPriceEth = 1/10`. -/
theorem start_auction_startingPrice_floor_witness :
    (0 : ℚ) ≤ 1/10 ∧
    (start_nft_auction (loggingWallet (fun _ => Except.error "boom")) []
        "0xNFT" 1 (1/10 : ℚ) 86400).2 =
      [] ++ [{ contract_address := AUCTION_CONTRACT_ADDRESS
               method := "createAuction"
               args := [("nftContract", PyVal.str "0xNFT"), ("tokenId", PyVal.int 1),
                        ("startingPrice", PyVal.int ⌊(1/10 : ℚ) * 10 ^ 18⌋),
                        ("duration", PyVal.int 86400)]
               abi := AUCTION_ABI
               value := none }] :=
  ⟨by norm_num, start_auction_startingPrice_floor _ _ _ _ _ _ (by norm_num)⟩

/-- C2: whether the wallet capability raises during submission
(`invoke_contract` itself) or during `.wait()`, each of the three
adapter functions returns its fixed-prefix error string carrying the
raised message, and never propagates the exception (the functions are
total, returning a `String`). -/
theorem wallet_exception_becomes_error_string {σ : Type} (w : Wallet σ) (s : σ)
    (nft : String) (tid : ℤ) (price bid : ℚ) (dur : ℤ) (msg : String)
    (h : (∀ s' inv, (w.invoke_contract s' inv).1 = Except.error msg) ∨
         (∀ s' inv, (w.invoke_contract s' inv).1 = Except.ok ⟨Except.error msg⟩)) :
    (start_nft_auction w s nft tid price dur).1 = "Error creating auction: " ++ msg ∧
    (bid_on_nft w s tid bid).1 = "Error placing bid: " ++ msg ∧
    (finalize_nft_auction w s tid).1 = "Error finalizing auction: " ++ msg := by
  rcases h with h | h <;>
    refine ⟨?_, ?_, ?_⟩ <;>
    simp only [start_nft_auction, bid_on_nft, finalize_nft_auction, h] <;> rfl

/-- Witness for C2 with a wallet whose submission always raises
`"boom"`. -/
theorem wallet_exception_becomes_error_string_witness :
    ((∀ s' inv, ((failingWallet "boom").invoke_contract s' inv).1 = Except.error "boom") ∨
     (∀ s' inv, ((failingWallet "boom").invoke_contract s' inv).1 =
        Except.ok ⟨Except.error "boom"⟩)) ∧
    ((start_nft_auction (failingWallet "boom") () "0xNFT" 1 (1/10 : ℚ) 86400).1 =
        "Error creating auction: " ++ "boom" ∧
     (bid_on_nft (failingWallet "boom") () 1 (1/2 : ℚ)).1 =
        "Error placing bid: " ++ "boom" ∧
     (finalize_nft_auction (failingWallet "boom") () 1).1 =
        "Error finalizing auction: " ++ "boom") :=
  ⟨Or.inl fun _ _ => rfl,
   wallet_exception_becomes_error_string (failingWallet "boom") () "0xNFT" 1
     (1/10) (1/2) 86400 "boom" (Or.inl fun _ _ => rfl)⟩

/-- C3: `bid_on_nft` with `token_id = 1` and `bid_amount = 0.5` submits
one invocation with method `"bid"` whose transferred value is exactly
`500000000000000000` wei, and the bid amount is not in the argument
mapping (which holds only the token id). -/
theorem bid_half_eth_value
    (f : ContractInvocation → Except String PendingInvocation)
    (s : List ContractInvocation) :
    (bid_on_nft (loggingWallet f) s 1 (1/2 : ℚ)).2 =
      s ++ [{ contract_address := AUCTION_CONTRACT_ADDRESS, method := "bid",
              args := [("tokenId", PyVal.int 1)], abi := AUCTION_ABI,
              value := some 500000000000000000 }] := by
  have hv : pyInt ((1/2 : ℚ) * 10 ^ 18) = 500000000000000000 := by
    unfold pyInt
    rw [if_pos (by norm_num),
      show (1/2 : ℚ) * 10 ^ 18 = ((500000000000000000 : ℤ) : ℚ) by norm_num,
      Int.floor_intCast]
  calc (bid_on_nft (loggingWallet f) s 1 (1/2 : ℚ)).2
      = s ++ [{ contract_address := AUCTION_CONTRACT_ADDRESS, method := "bid",
                args := [("tokenId", PyVal.int 1)], abi := AUCTION_ABI,
                value := some (pyInt ((1/2 : ℚ) * 10 ^ 18)) }] := rfl
    _ = s ++ [{ contract_address := AUCTION_CONTRACT_ADDRESS, method := "bid",
                args := [("tokenId", PyVal.int 1)], abi := AUCTION_ABI,
                value := some 500000000000000000 }] := by rw [hv]

/-- C4: for every input, `start_nft_auction` submits exactly one
invocation — the log grows by exactly one entry — whose contract
address is the fixed constant, whose method is `"createAuction"`, whose
argument mapping carries the NFT contract address, token id,
wei-converted starting price and duration, and which attaches no
transferred value. -/
theorem start_auction_single_invocation
    (f : ContractInvocation → Except String PendingInvocation)
    (s : List ContractInvocation) (nft : String) (tid : ℤ) (price : ℚ) (dur : ℤ) :
    ∃ inv : ContractInvocation,
      (start_nft_auction (loggingWallet f) s nft tid price dur).2 = s ++ [inv] ∧
      inv.contract_address = "0xA0f0b923532fdbcd85A11ccAED1362691C7931fA" ∧
      inv.method = "createAuction" ∧
      inv.args = [("nftContract", PyVal.str nft), ("tokenId", PyVal.int tid),
                  ("startingPrice", PyVal.int (pyInt (price * 10 ^ 18))),
                  ("duration", PyVal.int dur)] ∧
      inv.value = none :=
  ⟨_, rfl, rfl, rfl, rfl, rfl⟩

set_option maxRecDepth 8000 in
/-- C5: `start_nft_auction("0x123abc", 1, 0.1, 86400)` against a stub
wallet settling with hash `"0xabc"` and link `"link"` returns a result
string containing `"token ID 1"`, `"0.1 ETH"`, `"86400 seconds"`,
`"0xabc"` and `"link"`. -/
theorem start_auction_success_message_contents :
    ∃ r : String,
      (start_nft_auction (okWallet "0xabc" "link") () "0x123abc" 1 (1/10 : ℚ) 86400).1 = r ∧
      strHasSub r "token ID 1" = true ∧ strHasSub r "0.1 ETH" = true ∧
      strHasSub r "86400 seconds" = true ∧ strHasSub r "0xabc" = true ∧
      strHasSub r "link" = true := by
  refine ⟨"Auction created successfully for token ID 1.\nNFT Contract: 0x123abc\nStarting price: 0.1 ETH\nDuration: 86400 seconds\nTransaction hash: 0xabc\nTransaction link: link",
    ?_, ?_, ?_, ?_, ?_, ?_⟩
  · rw [show (1/10 : ℚ) = mkRat 1 10 by norm_num [Rat.mkRat_eq_div]]
    rfl
  all_goals decide

/-- C6: for every `token_id`, `finalize_nft_auction` submits an
invocation with method `"finalizeAuction"`, an argument mapping holding
only the token id, and no transferred value; on failure it returns a
string with prefix `"Error finalizing auction: "`. -/
theorem finalize_invocation_and_error
    (f : ContractInvocation → Except String PendingInvocation)
    (s : List ContractInvocation) (tid : ℤ) (msg : String) :
    (finalize_nft_auction (loggingWallet f) s tid).2 =
      s ++ [{ contract_address := AUCTION_CONTRACT_ADDRESS, method := "finalizeAuction",
              args := [("tokenId", PyVal.int tid)], abi := AUCTION_ABI, value := none }] ∧
    (finalize_nft_auction (failingWallet msg) () tid).1 = "Error finalizing auction: " ++ msg :=
  ⟨rfl, rfl⟩

/-- C7: finalizing twice with a stub wallet that succeeds both times
yields two success strings: the first is the success message, the
second equals the first (the second call is processed identically), and
the wallet really is invoked twice (its call counter reaches 2 — no
memoization suppresses the second submission). -/
theorem finalize_twice_independent_successes (tid : ℤ) (h l : String) :
    (finalize_nft_auction (countingWallet h l) 0 tid).1 =
      "Auction finalized for token ID " ++ toString tid ++ ".\n"
      ++ "Transaction hash: " ++ h ++ "\n"
      ++ "Transaction link: " ++ l ∧
    (finalize_nft_auction (countingWallet h l)
        (finalize_nft_auction (countingWallet h l) 0 tid).2 tid).1 =
      (finalize_nft_auction (countingWallet h l) 0 tid).1 ∧
    (finalize_nft_auction (countingWallet h l)
        (finalize_nft_auction (countingWallet h l) 0 tid).2 tid).2 = 2 :=
  ⟨rfl, rfl, rfl⟩

set_option linter.unusedVariables false in
/-- C8: no input validation — for any nonpositive starting price and
any duration, `start_nft_auction` still converts the price with
`int(starting_price * 10**18)` and submits the invocation instead of
rejecting before submission. -/
theorem start_auction_accepts_nonpositive_price
    (f : ContractInvocation → Except String PendingInvocation)
    (s : List ContractInvocation) (nft : String) (tid : ℤ) (price : ℚ) (dur : ℤ)
    (hp : price ≤ 0) :
    (start_nft_auction (loggingWallet f) s nft tid price dur).2 =
      s ++ [{ contract_address := AUCTION_CONTRACT_ADDRESS, method := "createAuction",
              args := [("nftContract", PyVal.str nft), ("tokenId", PyVal.int tid),
                       ("startingPrice", PyVal.int (pyInt (price * 10 ^ 18))),
                       ("duration", PyVal.int dur)],
              abi := AUCTION_ABI, value := none }] := rfl

/-- Witness for C8 at `startingPriceEth = -(1/2)`. -/
theorem start_auction_accepts_nonpositive_price_witness :
    (-(1/2) : ℚ) ≤ 0 ∧
    (start_nft_auction (loggingWallet (fun _ => Except.error "boom")) []
        "0xNFT" 7 (-(1/2) : ℚ) 86400).2 =
      [] ++ [{ contract_address := AUCTION_CONTRACT_ADDRESS, method := "createAuction",
               args := [("nftContract", PyVal.str "0xNFT"), ("tokenId", PyVal.int 7),
                        ("startingPrice", PyVal.int (pyInt ((-(1/2) : ℚ) * 10 ^ 18))),
                        ("duration", PyVal.int 86400)],
               abi := AUCTION_ABI, value := none }] :=
  ⟨by norm_num, start_auction_accepts_nonpositive_price _ _ _ _ _ _ (by norm_num)⟩

/-- C9: an exception raised after the invocation settles — a settled
result whose transaction hash or link access raises — is caught by the
same handler, producing the same fixed-prefix error string as a
submission failure, indistinguishable from it, for all three
functions. -/
theorem settled_missing_fields_caught (nft : String) (tid : ℤ) (price bid : ℚ) (dur : ℤ)
    (msg h : String) :
    (start_nft_auction (noHashWallet msg) () nft tid price dur).1 =
      "Error creating auction: " ++ msg ∧
    (start_nft_auction (noLinkWallet msg h) () nft tid price dur).1 =
      "Error creating auction: " ++ msg ∧
    (start_nft_auction (noHashWallet msg) () nft tid price dur).1 =
      (start_nft_auction (failingWallet msg) () nft tid price dur).1 ∧
    (bid_on_nft (noHashWallet msg) () tid bid).1 = "Error placing bid: " ++ msg ∧
    (bid_on_nft (noHashWallet msg) () tid bid).1 =
      (bid_on_nft (failingWallet msg) () tid bid).1 ∧
    (finalize_nft_auction (noHashWallet msg) () tid).1 =
      "Error finalizing auction: " ++ msg ∧
    (finalize_nft_auction (noHashWallet msg) () tid).1 =
      (finalize_nft_auction (failingWallet msg) () tid).1 :=
  ⟨rfl, rfl, rfl, rfl, rfl, rfl, rfl⟩

/-- C10: for every token id and bid amount, the argument mapping
`bid_on_nft` submits with method `"bid"` is exactly
`[("tokenId", token_id)]`; the bid amount appears only as the
invocation's transferred value. -/
theorem bid_args_exactly_tokenId
    (f : ContractInvocation → Except String PendingInvocation)
    (s : List ContractInvocation) (tid : ℤ) (bid : ℚ) :
    (bid_on_nft (loggingWallet f) s tid bid).2 =
      s ++ [{ contract_address := AUCTION_CONTRACT_ADDRESS, method := "bid",
              args := [("tokenId", PyVal.int tid)], abi := AUCTION_ABI,
              value := some (pyInt (bid * 10 ^ 18)) }] := rfl
